import Mathlib

/-!
# WiFi manager (main/src/wifi_manager.c): dual-mode bring-up and connection signal

Shallow embedding of `wifi_manager.c`.  The file-scope variables of the C file and the
one FreeRTOS event group they refer to form an explicit `State`; every call into ESP-IDF
or FreeRTOS is appended to `State.trace`, and the value such a call returns is supplied
by an environment record, one per API call.  `ESP_ERROR_CHECK` aborts the program on any
code other than `ESP_OK`; this is the `Status.aborted` result.
-/

set_option linter.unusedVariables false

namespace WifiManager

/-! ## Constants of the platform headers -/

/-- Error codes are C `int`s. -/
abbrev esp_err_t := Int

def ESP_OK : esp_err_t := 0
def ESP_FAIL : esp_err_t := -1
/-- Value of esp_err.h: 0x102. -/
def ESP_ERR_INVALID_ARG : esp_err_t := 0x102
/-- Value of nvs.h: ESP_ERR_NVS_BASE + 0x0d. -/
def ESP_ERR_NVS_NO_FREE_PAGES : esp_err_t := 0x110d
/-- Value of nvs.h: ESP_ERR_NVS_BASE + 0x10. -/
def ESP_ERR_NVS_NEW_VERSION_FOUND : esp_err_t := 0x1110
/-- Value of esp_wifi.h: ESP_ERR_WIFI_BASE + 1. -/
def ESP_ERR_WIFI_NOT_INIT : esp_err_t := 0x3001

def BIT0 : Nat := 1
def BIT1 : Nat := 2
def WIFI_CONNECTED_BIT : Nat := BIT0
def WIFI_FAIL_BIT : Nat := BIT1

/-- Event categories: `esp_event_base_t` values are compared by pointer in the handler. -/
inductive esp_event_base_t where
  | WIFI_EVENT
  | IP_EVENT
  | other (tag : Nat)
deriving DecidableEq, Repr

/-- Values of `wifi_event_t` in esp_wifi_types.h. -/
def WIFI_EVENT_STA_START : Int := 2
def WIFI_EVENT_STA_DISCONNECTED : Int := 5
def WIFI_EVENT_AP_STACONNECTED : Int := 14
def WIFI_EVENT_AP_STADISCONNECTED : Int := 15
/-- Value of `ip_event_t` in esp_netif_types.h. -/
def IP_EVENT_STA_GOT_IP : Int := 0
/-- Wildcard event id of esp_event.h. -/
def ESP_EVENT_ANY_ID : Int := -1

/-- Values of `wifi_auth_mode_t`. -/
def WIFI_AUTH_OPEN : Nat := 0
def WIFI_AUTH_WPA2_PSK : Nat := 3
/-- Value of `wifi_scan_method_t`. -/
def WIFI_ALL_CHANNEL_SCAN : Nat := 1
/-- Value of `wifi_sae_pwe_method_t`: the fourth enumerator, after UNSPECIFIED,
HUNT_AND_PECK and HASH_TO_ELEMENT. -/
def WPA3_SAE_PWE_BOTH : Nat := 3
/-- Value of `wifi_mode_t`. -/
def WIFI_MODE_APSTA : Nat := 3

/-- Interfaces of `wifi_interface_t`. -/
inductive wifi_interface_t where
  | WIFI_IF_STA
  | WIFI_IF_AP
deriving DecidableEq, Repr

/-- Size of the `ssid` array of both configuration structs. -/
def SSID_SIZE : Nat := 32
/-- Size of the `password` array of both configuration structs. -/
def PASSWORD_SIZE : Nat := 64

/-! ## Data model -/

/-- The fields of `wifi_ap_config_t` the source names; a designated initializer leaves
every other field zero. -/
structure wifi_ap_config_t where
  ssid : List Nat
  password : List Nat
  channel : Nat
  authmode : Nat
  max_connection : Nat
  pmf_cfg_required : Bool
deriving DecidableEq, Repr

/-- The fields of `wifi_sta_config_t` the source names. -/
structure wifi_sta_config_t where
  ssid : List Nat
  password : List Nat
  scan_method : Nat
  failure_retry_cnt : Nat
  threshold_authmode : Nat
  sae_pwe_h2e : Nat
deriving DecidableEq, Repr

/-- The union `wifi_config_t`. -/
inductive wifi_config_t where
  | ap (c : wifi_ap_config_t)
  | sta (c : wifi_sta_config_t)
deriving DecidableEq, Repr

/-- A pointer-like handle: `none` is NULL. -/
abbrev Handle := Option Nat

/-- Calls into ESP-IDF and FreeRTOS, in the order the program makes them. -/
inductive Call where
  | nvs_flash_init
  | nvs_flash_erase
  | esp_netif_init
  | esp_event_loop_create_default
  | xEventGroupCreate
  | esp_wifi_init
  | esp_event_handler_instance_register (base : esp_event_base_t) (id : Int)
  | esp_wifi_set_mode (mode : Nat)
  | esp_netif_create_default_wifi_ap
  | esp_netif_create_default_wifi_sta
  | esp_wifi_set_config (ifx : wifi_interface_t) (cfg : wifi_config_t)
  | esp_wifi_start
  | esp_wifi_connect
  | esp_netif_set_default_netif (netif : Handle)
  | esp_netif_napt_enable (netif : Handle)
  | esp_wifi_stop
  | esp_wifi_deinit
  | vEventGroupDelete (group : Handle)
  | esp_netif_get_ip_info (netif : Handle)
  | esp_netif_get_handle_from_ifkey (key : String)
  | ESP_LOGI (msg : String)
  | ESP_LOGE (msg : String)
deriving DecidableEq, Repr

/-- The file-scope variables of wifi_manager.c, the bits of the event group that
`s_wifi_event_group` refers to, and the calls made so far. -/
structure State where
  s_wifi_event_group : Handle
  esp_netif_ap : Handle
  esp_netif_sta : Handle
  server : Handle
  event_bits : Nat
  trace : List Call
deriving DecidableEq, Repr

/-- The state at program start: all handles NULL, nothing called. -/
def State.boot : State :=
  { s_wifi_event_group := none, esp_netif_ap := none, esp_netif_sta := none,
    server := none, event_bits := 0, trace := [] }

/-- Record one external call. -/
def State.call (s : State) (c : Call) : State :=
  { s with trace := s.trace ++ [c] }

/-- How a function of the module ends: it returns a code, or `ESP_ERROR_CHECK` aborts the
program with the failing code. -/
inductive Status where
  | returned (code : esp_err_t)
  | aborted (code : esp_err_t)
deriving DecidableEq, Repr

/-- The macro `ESP_ERROR_CHECK(x)`: continue when `x` is `ESP_OK`, abort otherwise. -/
def ESP_ERROR_CHECK (x : esp_err_t) (s : State) (k : State → Status × State) :
    Status × State :=
  if x = ESP_OK then k s else (Status.aborted x, s)

/-- An asynchronous notification of the default event loop. -/
structure Event where
  base : esp_event_base_t
  id : Int
deriving DecidableEq, Repr

/-! ## C strings -/

/-- The characters of the C string stored at a pointer: the bytes before the first NUL. -/
def c_str (p : List Nat) : List Nat :=
  p.takeWhile (fun b => b != 0)

def strlen (p : List Nat) : Nat :=
  (c_str p).length

/-- The destination array after `strncpy(dst, src, n)`: at most `n` characters of
the string, padded with NUL bytes up to `n`; no terminator when the string has `n`
characters or more. -/
def strncpy (src : List Nat) (n : Nat) : List Nat :=
  (c_str src).take n ++ List.replicate (n - ((c_str src).take n).length) 0

/-! ## Event group -/

/-- FreeRTOS `xEventGroupSetBits` on the module's event group. -/
def xEventGroupSetBits (uxBitsToSet : Nat) (s : State) : State :=
  { s with event_bits := s.event_bits ||| uxBitsToSet }

/-- The wake-up test of `xEventGroupWaitBits`. -/
def prvTestWaitCondition (uxCurrentEventBits uxBitsToWaitFor : Nat)
    (xWaitForAllBits : Bool) : Bool :=
  if xWaitForAllBits then uxCurrentEventBits &&& uxBitsToWaitFor == uxBitsToWaitFor
  else uxCurrentEventBits &&& uxBitsToWaitFor != 0

/-- The state when `xEventGroupWaitBits` wakes with its condition met. -/
def clearOnExit (uxBitsToWaitFor : Nat) (xClearOnExit : Bool) (s : State) : State :=
  if xClearOnExit then
    { s with event_bits := s.event_bits ^^^ (s.event_bits &&& uxBitsToWaitFor) }
  else s

/-! ## wifi_manager.c -/

/-- The static function `wifi_event_handler`. -/
def wifi_event_handler (event_base : esp_event_base_t) (event_id : Int) (s : State) :
    State :=
  if event_base = esp_event_base_t.WIFI_EVENT then
    if event_id = WIFI_EVENT_STA_START then
      s.call Call.esp_wifi_connect
    else if event_id = WIFI_EVENT_STA_DISCONNECTED then
      xEventGroupSetBits WIFI_FAIL_BIT s
    else if event_id = WIFI_EVENT_AP_STACONNECTED then
      s.call (Call.ESP_LOGI ("Station connected to AP"))
    else if event_id = WIFI_EVENT_AP_STADISCONNECTED then
      s.call (Call.ESP_LOGI ("Station disconnected from AP"))
    else s
  else if event_base = esp_event_base_t.IP_EVENT ∧ event_id = IP_EVENT_STA_GOT_IP then
    xEventGroupSetBits WIFI_CONNECTED_BIT s
  else s

/-- The event-loop task delivering events in order: `wifi_event_handler` runs once for
each of them. -/
def deliver_events : List Event → State → State
  | [], s => s
  | e :: rest, s => deliver_events rest (wifi_event_handler e.base e.id s)

/-- FreeRTOS `xEventGroupWaitBits` on the module's event group.  The list holds the
events the event loop delivers, in order, from the moment the call is entered.  When
the condition already holds the call returns at once; otherwise the caller blocks and
each event runs `wifi_event_handler` until the condition holds or the list runs out,
which is the deadline passing.  On wake-up the call returns the bits of that moment and
clears the awaited bits if asked to; at the deadline it returns the current bits and
clears nothing.  The third component is the part of the list not yet delivered at
wake-up. -/
def xEventGroupWaitBits (uxBitsToWaitFor : Nat) (xClearOnExit xWaitForAllBits : Bool) :
    List Event → State → Nat × State × List Event
  | [], s =>
    if prvTestWaitCondition s.event_bits uxBitsToWaitFor xWaitForAllBits then
      (s.event_bits, clearOnExit uxBitsToWaitFor xClearOnExit s, [])
    else (s.event_bits, s, [])
  | e :: rest, s =>
    if prvTestWaitCondition s.event_bits uxBitsToWaitFor xWaitForAllBits then
      (s.event_bits, clearOnExit uxBitsToWaitFor xClearOnExit s, e :: rest)
    else
      xEventGroupWaitBits uxBitsToWaitFor xClearOnExit xWaitForAllBits rest
        (wifi_event_handler e.base e.id s)

/-- Results of the external calls of one `wifi_manager_init`. -/
structure InitEnv where
  nvs_flash_init_first : esp_err_t
  nvs_flash_erase : esp_err_t
  nvs_flash_init_second : esp_err_t
  esp_netif_init : esp_err_t
  esp_event_loop_create_default : esp_err_t
  xEventGroupCreate : Handle
  esp_wifi_init : esp_err_t
  register_wifi_event : esp_err_t
  register_ip_event : esp_err_t
  esp_wifi_set_mode : esp_err_t
deriving DecidableEq, Repr

/-- Lines 67 to 90 of `wifi_manager_init`, given the value of `ret`. -/
def wifi_manager_init_checked (env : InitEnv) (ret : esp_err_t) (s : State) :
    Status × State :=
  ESP_ERROR_CHECK ret s fun s =>
  ESP_ERROR_CHECK env.esp_netif_init (s.call Call.esp_netif_init) fun s =>
  ESP_ERROR_CHECK env.esp_event_loop_create_default
    (s.call Call.esp_event_loop_create_default) fun s =>
  let s := { s.call Call.xEventGroupCreate with
              s_wifi_event_group := env.xEventGroupCreate, event_bits := 0 }
  ESP_ERROR_CHECK env.esp_wifi_init (s.call Call.esp_wifi_init) fun s =>
  ESP_ERROR_CHECK env.register_wifi_event
    (s.call (Call.esp_event_handler_instance_register
      esp_event_base_t.WIFI_EVENT ESP_EVENT_ANY_ID)) fun s =>
  ESP_ERROR_CHECK env.register_ip_event
    (s.call (Call.esp_event_handler_instance_register
      esp_event_base_t.IP_EVENT IP_EVENT_STA_GOT_IP)) fun s =>
  ESP_ERROR_CHECK env.esp_wifi_set_mode
    (s.call (Call.esp_wifi_set_mode WIFI_MODE_APSTA)) fun s =>
  (Status.returned ESP_OK, s)

def wifi_manager_init (env : InitEnv) (s : State) : Status × State :=
  let s := s.call Call.nvs_flash_init
  let ret := env.nvs_flash_init_first
  if ret = ESP_ERR_NVS_NO_FREE_PAGES ∨ ret = ESP_ERR_NVS_NEW_VERSION_FOUND then
    ESP_ERROR_CHECK env.nvs_flash_erase (s.call Call.nvs_flash_erase) fun s =>
    wifi_manager_init_checked env env.nvs_flash_init_second (s.call Call.nvs_flash_init)
  else
    wifi_manager_init_checked env ret s

/-- Results of the external calls of one `wifi_manager_start_ap`. -/
structure ApEnv where
  esp_netif_create_default_wifi_ap : Handle
  esp_wifi_set_config : esp_err_t
deriving DecidableEq, Repr

/-- The AP configuration `wifi_manager_start_ap` builds (lines 100 to 116). -/
def wifi_ap_config (ap_ssid ap_password : List Nat) (ap_channel max_connections : Nat) :
    wifi_ap_config_t :=
  let cfg : wifi_ap_config_t :=
    { ssid := List.replicate SSID_SIZE 0, password := List.replicate PASSWORD_SIZE 0,
      channel := ap_channel, max_connection := max_connections,
      authmode := WIFI_AUTH_WPA2_PSK, pmf_cfg_required := false }
  let cfg := { cfg with ssid := strncpy ap_ssid SSID_SIZE }
  let cfg := { cfg with password := strncpy ap_password PASSWORD_SIZE }
  if strlen ap_password = 0 then { cfg with authmode := WIFI_AUTH_OPEN } else cfg

def wifi_manager_start_ap (env : ApEnv) (ap_ssid ap_password : List Nat)
    (ap_channel max_connections : Nat) (s : State) : Status × State :=
  let s := { s.call Call.esp_netif_create_default_wifi_ap with
              esp_netif_ap := env.esp_netif_create_default_wifi_ap }
  let wifi_ap_config := wifi_ap_config ap_ssid ap_password ap_channel max_connections
  ESP_ERROR_CHECK env.esp_wifi_set_config
    (s.call (Call.esp_wifi_set_config wifi_interface_t.WIFI_IF_AP
      (wifi_config_t.ap wifi_ap_config))) fun s =>
  (Status.returned ESP_OK, s)

/-- Results of the external calls of one `wifi_manager_connect_sta`. -/
structure StaEnv where
  esp_netif_create_default_wifi_sta : Handle
  esp_wifi_set_config : esp_err_t
  esp_wifi_start : esp_err_t
  esp_netif_napt_enable : esp_err_t
deriving DecidableEq, Repr

/-- The STA configuration `wifi_manager_connect_sta` builds (lines 131 to 141). -/
def wifi_sta_config (ssid password : List Nat) : wifi_sta_config_t :=
  let cfg : wifi_sta_config_t :=
    { ssid := List.replicate SSID_SIZE 0, password := List.replicate PASSWORD_SIZE 0,
      scan_method := WIFI_ALL_CHANNEL_SCAN, failure_retry_cnt := 5,
      threshold_authmode := WIFI_AUTH_WPA2_PSK, sae_pwe_h2e := WPA3_SAE_PWE_BOTH }
  let cfg := { cfg with ssid := strncpy ssid SSID_SIZE }
  { cfg with password := strncpy password PASSWORD_SIZE }

/-- What a `wifi_manager_connect_sta` call leaves behind: how it ended, the final value
of the out-parameter `*connected`, and the state. -/
structure ConnectResult where
  status : Status
  connected : Bool
  state : State
deriving DecidableEq, Repr

/-- Lines 128 to 144 of `wifi_manager_connect_sta`: the state in which the wait starts,
or the abort of one of the two checks. -/
def connect_sta_start (env : StaEnv) (ssid password : List Nat) (s : State) :
    Status × State :=
  let s := { s.call Call.esp_netif_create_default_wifi_sta with
              esp_netif_sta := env.esp_netif_create_default_wifi_sta }
  let wifi_sta_config := wifi_sta_config ssid password
  ESP_ERROR_CHECK env.esp_wifi_set_config
    (s.call (Call.esp_wifi_set_config wifi_interface_t.WIFI_IF_STA
      (wifi_config_t.sta wifi_sta_config))) fun s =>
  ESP_ERROR_CHECK env.esp_wifi_start (s.call Call.esp_wifi_start) fun s =>
  (Status.returned ESP_OK, s)

/-- Lines 152 to 163 of `wifi_manager_connect_sta`, given the local `bits`. -/
def connect_sta_resolve (env : StaEnv) (bits : Nat) (s : State) : ConnectResult :=
  if bits &&& WIFI_CONNECTED_BIT ≠ 0 then
    let s := s.call (Call.ESP_LOGI ("Connected to AP"))
    let s := s.call (Call.esp_netif_set_default_netif s.esp_netif_sta)
    let s := s.call (Call.esp_netif_napt_enable s.esp_netif_ap)
    let s := if env.esp_netif_napt_enable ≠ ESP_OK then
        s.call (Call.ESP_LOGE ("NAPT not enabled")) else s
    { status := Status.returned ESP_OK, connected := true, state := s }
  else
    { status := Status.returned ESP_OK, connected := false,
      state := s.call (Call.ESP_LOGI ("Failed to connect to AP")) }

/-- The function `wifi_manager_connect_sta`.  The handler runs in the event-loop task,
so events arrive at any moment of a call: `before` are the events delivered before the
wait is entered, `during` those that arrive from then on, within `timeout_ms`, and
`after` those delivered between the end of the wait and the return.  The events of
`during` still undelivered at wake-up are delivered ahead of `after`.  Lines 128 to 144
and 152 to 163 neither read nor write the signal, so the place of a handler run inside
these windows only moves its entries in the trace: `before` is placed right after
`esp_wifi_start`, `after` right after the wait. -/
def wifi_manager_connect_sta (env : StaEnv) (ssid password : List Nat) (timeout_ms : Nat)
    (before during after : List Event) (s : State) : ConnectResult :=
  match connect_sta_start env ssid password s with
  | (Status.aborted code, s) =>
    { status := Status.aborted code, connected := false, state := s }
  | (Status.returned _, s) =>
    let s := deliver_events before s
    let w := xEventGroupWaitBits (WIFI_CONNECTED_BIT ||| WIFI_FAIL_BIT) true false during s
    let s := deliver_events (w.2.2 ++ after) w.2.1
    connect_sta_resolve env w.1 s

/-- The local `bits` of a `wifi_manager_connect_sta` call: the value its
`xEventGroupWaitBits` returns, `none` when the call aborts before waiting. -/
def observed_bits (env : StaEnv) (ssid password : List Nat) (before during : List Event)
    (s : State) : Option Nat :=
  match connect_sta_start env ssid password s with
  | (Status.aborted _, _) => none
  | (Status.returned _, s) =>
    some (xEventGroupWaitBits (WIFI_CONNECTED_BIT ||| WIFI_FAIL_BIT) true false during
      (deliver_events before s)).1

/-- Results of the external calls of one `wifi_manager_deinit`. -/
structure DeinitEnv where
  esp_wifi_stop : esp_err_t
  esp_wifi_deinit : esp_err_t
deriving DecidableEq, Repr

def wifi_manager_deinit (env : DeinitEnv) (s : State) : Status × State :=
  ESP_ERROR_CHECK env.esp_wifi_stop (s.call Call.esp_wifi_stop) fun s =>
  ESP_ERROR_CHECK env.esp_wifi_deinit (s.call Call.esp_wifi_deinit) fun s =>
  let s := if s.s_wifi_event_group ≠ none then
      { s.call (Call.vEventGroupDelete s.s_wifi_event_group) with
        s_wifi_event_group := none }
    else s
  (Status.returned ESP_OK, s)

/-- Results of the external calls of one address query.  `ip` is the content of
`ip_info.ip.addr` after `esp_netif_get_ip_info`: the address when the call succeeds,
whatever the uninitialized local holds when it fails. -/
structure IpEnv where
  esp_netif_get_handle_from_ifkey : Handle
  esp_netif_get_ip_info : esp_err_t
  ip : Nat
deriving DecidableEq, Repr

/-- What an address query leaves behind: the code it returns, the text written to the
caller's buffer (`none` when nothing was written), and the state. -/
structure IpResult where
  ret : esp_err_t
  ip_addr : Option String
  state : State
deriving DecidableEq, Repr

/-- The text `snprintf(ip_addr, buffer_size, IPSTR, IP2STR(&ip_info.ip))` stores: the
four octets in memory order, cut to `buffer_size - 1` characters. -/
def snprintf_ip (buffer_size : Nat) (addr : Nat) : Option String :=
  if buffer_size = 0 then none
  else
    let text := toString (addr % 256) ++ "." ++ toString (addr / 256 % 256) ++ "."
      ++ toString (addr / 65536 % 256) ++ "." ++ toString (addr / 16777216 % 256)
    some (String.mk (text.toList.take (buffer_size - 1)))

def wifi_manager_get_ap_ip (env : IpEnv) (buffer_size : Nat) (s : State) : IpResult :=
  let s := s.call (Call.esp_netif_get_ip_info s.esp_netif_ap)
  { ret := ESP_OK, ip_addr := snprintf_ip buffer_size env.ip, state := s }

def wifi_manager_get_sta_ip (env : IpEnv) (buffer_size : Nat) (s : State) : IpResult :=
  let s := s.call (Call.esp_netif_get_handle_from_ifkey ("WIFI_STA_DEF"))
  let netif := env.esp_netif_get_handle_from_ifkey
  if netif = none then
    { ret := ESP_FAIL, ip_addr := none, state := s }
  else
    let s := s.call (Call.esp_netif_get_ip_info netif)
    let ret := env.esp_netif_get_ip_info
    if ret ≠ ESP_OK then
      { ret := ret, ip_addr := none, state := s }
    else
      { ret := ESP_OK, ip_addr := snprintf_ip buffer_size env.ip, state := s }

/-! ## Helpers for the statements -/

/-- Is this call a forwarding-enable call (`esp_netif_napt_enable`)? -/
def Call.is_napt_enable : Call → Bool
  | Call.esp_netif_napt_enable _ => true
  | _ => false

/-- Is this call a default-route promotion (`esp_netif_set_default_netif`)? -/
def Call.is_set_default_netif : Call → Bool
  | Call.esp_netif_set_default_netif _ => true
  | _ => false

/-- Is this call a release of an event group (`vEventGroupDelete`)? -/
def Call.is_group_delete : Call → Bool
  | Call.vEventGroupDelete _ => true
  | _ => false

/-- Calls the event handler can make: the join action and the two log lines. -/
def Call.from_handler : Call → Bool
  | Call.esp_wifi_connect => true
  | Call.ESP_LOGI _ => true
  | _ => false

/-- What the caller of `wifi_manager_connect_sta` is told: the return status and the
final value of `*connected`. -/
def ConnectResult.reported (r : ConnectResult) : Status × Bool :=
  (r.status, r.connected)

/-- The blocking wait of `wifi_manager_connect_sta` (lines 146 to 150). -/
def sta_wait (during : List Event) (s : State) : Nat × State × List Event :=
  xEventGroupWaitBits (WIFI_CONNECTED_BIT ||| WIFI_FAIL_BIT) true false during s

/-- The state in which `wifi_manager_connect_sta` starts to wait when both checks pass. -/
def sta_wait_state (env : StaEnv) (ssid password : List Nat) (s : State) : State :=
  (({ s.call Call.esp_netif_create_default_wifi_sta with
      esp_netif_sta := env.esp_netif_create_default_wifi_sta }).call
    (Call.esp_wifi_set_config wifi_interface_t.WIFI_IF_STA
      (wifi_config_t.sta (wifi_sta_config ssid password)))).call Call.esp_wifi_start

/-- The state in which `wifi_manager_connect_sta` enters the wait when both checks
pass. -/
def sta_entry_state (env : StaEnv) (ssid password : List Nat) (before : List Event)
    (s : State) : State :=
  deliver_events before (sta_wait_state env ssid password s)

/-- The state in which `wifi_manager_connect_sta` reaches line 152 when both checks
pass. -/
def sta_resolve_state (env : StaEnv) (ssid password : List Nat)
    (before during after : List Event) (s : State) : State :=
  deliver_events
    ((sta_wait during (sta_entry_state env ssid password before s)).2.2 ++ after)
    (sta_wait during (sta_entry_state env ssid password before s)).2.1

/-- A radio that accepts everything, with interface handle 2 for the station. -/
def StaEnv.accepting : StaEnv :=
  { esp_netif_create_default_wifi_sta := some 2, esp_wifi_set_config := ESP_OK,
    esp_wifi_start := ESP_OK, esp_netif_napt_enable := ESP_OK }

/-- An access-point bring-up that succeeds, with interface handle 1. -/
def ApEnv.accepting : ApEnv :=
  { esp_netif_create_default_wifi_ap := some 1, esp_wifi_set_config := ESP_OK }

/-- An initialization in which every call succeeds; the event group gets handle 7. -/
def InitEnv.accepting : InitEnv :=
  { nvs_flash_init_first := ESP_OK, nvs_flash_erase := ESP_OK,
    nvs_flash_init_second := ESP_OK, esp_netif_init := ESP_OK,
    esp_event_loop_create_default := ESP_OK, xEventGroupCreate := some 7,
    esp_wifi_init := ESP_OK, register_wifi_event := ESP_OK,
    register_ip_event := ESP_OK, esp_wifi_set_mode := ESP_OK }

/-- The bytes of "Home" followed by the terminator. -/
def ssid_home : List Nat := [72, 111, 109, 101, 0]
/-- The bytes of "pass1234" followed by the terminator. -/
def password_home : List Nat := [112, 97, 115, 115, 49, 50, 51, 52, 0]
/-- The bytes of "Upstream" followed by the terminator. -/
def ssid_upstream : List Nat := [85, 112, 115, 116, 114, 101, 97, 109, 0]
/-- The bytes of "secret" followed by the terminator. -/
def password_upstream : List Nat := [115, 101, 99, 114, 101, 116, 0]

/-- The state after `init()` and `startAccessPoint("Home","pass1234",1,8)` on a radio
that accepts everything. -/
def State.ap_started : State :=
  (wifi_manager_start_ap ApEnv.accepting ssid_home password_home 1 8
    (wifi_manager_init InitEnv.accepting State.boot).2).2

/-- The link-layer "station disconnected" event. -/
def Event.sta_disconnected : Event :=
  { base := esp_event_base_t.WIFI_EVENT, id := WIFI_EVENT_STA_DISCONNECTED }

/-- The IP-layer "station got IP" event. -/
def Event.sta_got_ip : Event :=
  { base := esp_event_base_t.IP_EVENT, id := IP_EVENT_STA_GOT_IP }

/-- A teardown in which the radio stops and deinitializes without error. -/
def DeinitEnv.accepting : DeinitEnv :=
  { esp_wifi_stop := ESP_OK, esp_wifi_deinit := ESP_OK }

/-- A teardown on a radio that is no longer initialized: `esp_wifi_stop` reports
`ESP_ERR_WIFI_NOT_INIT`. -/
def DeinitEnv.not_initialized : DeinitEnv :=
  { esp_wifi_stop := ESP_ERR_WIFI_NOT_INIT, esp_wifi_deinit := ESP_ERR_WIFI_NOT_INIT }

/-- An address query on a NULL interface: the lookup finds nothing and
`esp_netif_get_ip_info` rejects the NULL handle. -/
def IpEnv.no_interface : IpEnv :=
  { esp_netif_get_handle_from_ifkey := none,
    esp_netif_get_ip_info := ESP_ERR_INVALID_ARG, ip := 0 }

/-- A string of 33 characters 'A' followed by the terminator. -/
def ssid_33 : List Nat := List.replicate 33 65 ++ [0]

/-- The state after `connectStation("Upstream","secret",5000)` during which the
station gets its address. -/
def State.sta_connected : State :=
  (wifi_manager_connect_sta StaEnv.accepting ssid_upstream password_upstream 5000
    [] [Event.sta_got_ip] [] State.ap_started).state

/-- The state after `connectStation("Upstream","secret",5000)` during which no event
arrives: the wait times out. -/
def State.sta_timed_out : State :=
  (wifi_manager_connect_sta StaEnv.accepting ssid_upstream password_upstream 5000
    [] [] [] State.ap_started).state

/-- Which of the two signalling events comes first in a list of events: `some true`
for station-got-IP, `some false` for station-disconnected, `none` when the list has
neither. -/
def first_signal : List Event → Option Bool
  | [] => none
  | e :: rest =>
    if e.base = esp_event_base_t.WIFI_EVENT ∧ e.id = WIFI_EVENT_STA_DISCONNECTED then
      some false
    else if e.base = esp_event_base_t.IP_EVENT ∧ e.id = IP_EVENT_STA_GOT_IP then
      some true
    else first_signal rest

/-- The signal bit `wifi_event_handler` sets for an event, 0 when it sets none. -/
def Event.signal (e : Event) : Nat :=
  if e.base = esp_event_base_t.WIFI_EVENT ∧ e.id = WIFI_EVENT_STA_DISCONNECTED then
    WIFI_FAIL_BIT
  else if e.base = esp_event_base_t.IP_EVENT ∧ e.id = IP_EVENT_STA_GOT_IP then
    WIFI_CONNECTED_BIT
  else 0

/-- The signal bits set by the handler over a list of events. -/
def pending_bits : List Event → Nat
  | [] => 0
  | e :: rest => e.signal ||| pending_bits rest

/-- The events that follow the first signalling event of a list; none when the list has
no signalling event. -/
def after_first_signal : List Event → List Event
  | [] => []
  | e :: rest => if e.signal ≠ 0 then rest else after_first_signal rest

/-- The signal bit that stands for an outcome of `first_signal`. -/
def signal_bits : Option Bool → Nat
  | none => 0
  | some true => WIFI_CONNECTED_BIT
  | some false => WIFI_FAIL_BIT

/-! ## Bit arithmetic of the signal -/

theorem or_one_and_three {b : Nat} (h : b &&& 3 = 0) : (b ||| 1) &&& 3 = 1 := by
  rw [Nat.and_distrib_right, h]; rfl

theorem or_two_and_three {b : Nat} (h : b &&& 3 = 0) : (b ||| 2) &&& 3 = 2 := by
  rw [Nat.and_distrib_right, h]; rfl

theorem clear_and_mask (b m : Nat) : (b ^^^ (b &&& m)) &&& m = 0 := by
  rw [Nat.and_xor_distrib_right, Nat.and_assoc, Nat.and_self, Nat.xor_self]

/-! ## The event handler -/

theorem handler_event_group (b : esp_event_base_t) (i : Int) (s : State) :
    (wifi_event_handler b i s).s_wifi_event_group = s.s_wifi_event_group := by
  unfold wifi_event_handler
  split_ifs <;> simp [State.call, xEventGroupSetBits]

theorem handler_netif_ap (b : esp_event_base_t) (i : Int) (s : State) :
    (wifi_event_handler b i s).esp_netif_ap = s.esp_netif_ap := by
  unfold wifi_event_handler
  split_ifs <;> simp [State.call, xEventGroupSetBits]

theorem handler_netif_sta (b : esp_event_base_t) (i : Int) (s : State) :
    (wifi_event_handler b i s).esp_netif_sta = s.esp_netif_sta := by
  unfold wifi_event_handler
  split_ifs <;> simp [State.call, xEventGroupSetBits]

theorem handler_server (b : esp_event_base_t) (i : Int) (s : State) :
    (wifi_event_handler b i s).server = s.server := by
  unfold wifi_event_handler
  split_ifs <;> simp [State.call, xEventGroupSetBits]

theorem handler_trace (b : esp_event_base_t) (i : Int) (s : State) :
    ∃ added, (wifi_event_handler b i s).trace = s.trace ++ added ∧
      ∀ c ∈ added, c.from_handler = true := by
  unfold wifi_event_handler
  split_ifs
  · exact ⟨[Call.esp_wifi_connect], rfl, by simp [Call.from_handler]⟩
  · exact ⟨[], by simp [xEventGroupSetBits], by simp⟩
  · exact ⟨[Call.ESP_LOGI ("Station connected to AP")], rfl, by simp [Call.from_handler]⟩
  · exact ⟨[Call.ESP_LOGI ("Station disconnected from AP")], rfl,
      by simp [Call.from_handler]⟩
  · exact ⟨[], by simp, by simp⟩
  · exact ⟨[], by simp [xEventGroupSetBits], by simp⟩
  · exact ⟨[], by simp, by simp⟩

theorem handler_event_bits (b : esp_event_base_t) (i : Int) (s : State) :
    (wifi_event_handler b i s).event_bits =
      (if b = esp_event_base_t.WIFI_EVENT ∧ i = WIFI_EVENT_STA_DISCONNECTED
        then s.event_bits ||| WIFI_FAIL_BIT
       else if b = esp_event_base_t.IP_EVENT ∧ i = IP_EVENT_STA_GOT_IP
        then s.event_bits ||| WIFI_CONNECTED_BIT
       else s.event_bits) := by
  unfold wifi_event_handler
  split_ifs <;>
    simp_all [State.call, xEventGroupSetBits, WIFI_EVENT_STA_START,
      WIFI_EVENT_STA_DISCONNECTED, WIFI_EVENT_AP_STACONNECTED,
      WIFI_EVENT_AP_STADISCONNECTED]

/-- C10: for every (category, id) pair the handler leaves the four file-scope handles
untouched; it ORs exactly the FAILED bit into the signal on link-layer
station-disconnected, exactly the CONNECTED bit on IP-layer station-got-IP, and leaves
the signal unchanged on every other event; on link-layer station-start it calls
`esp_wifi_connect` (the join action), on AP client joined/left it writes one log line,
and on every other event it makes no call at all. -/
theorem wifi_event_handler_effect (event_base : esp_event_base_t) (event_id : Int)
    (s : State) :
    (wifi_event_handler event_base event_id s).s_wifi_event_group = s.s_wifi_event_group ∧
    (wifi_event_handler event_base event_id s).esp_netif_ap = s.esp_netif_ap ∧
    (wifi_event_handler event_base event_id s).esp_netif_sta = s.esp_netif_sta ∧
    (wifi_event_handler event_base event_id s).server = s.server ∧
    (wifi_event_handler event_base event_id s).event_bits =
      (if event_base = esp_event_base_t.WIFI_EVENT ∧ event_id = WIFI_EVENT_STA_DISCONNECTED
        then s.event_bits ||| WIFI_FAIL_BIT
       else if event_base = esp_event_base_t.IP_EVENT ∧ event_id = IP_EVENT_STA_GOT_IP
        then s.event_bits ||| WIFI_CONNECTED_BIT
       else s.event_bits) ∧
    (wifi_event_handler event_base event_id s).trace =
      (if event_base = esp_event_base_t.WIFI_EVENT ∧ event_id = WIFI_EVENT_STA_START
        then s.trace ++ [Call.esp_wifi_connect]
       else if event_base = esp_event_base_t.WIFI_EVENT
          ∧ event_id = WIFI_EVENT_AP_STACONNECTED
        then s.trace ++ [Call.ESP_LOGI ("Station connected to AP")]
       else if event_base = esp_event_base_t.WIFI_EVENT
          ∧ event_id = WIFI_EVENT_AP_STADISCONNECTED
        then s.trace ++ [Call.ESP_LOGI ("Station disconnected from AP")]
       else s.trace) := by
  refine ⟨handler_event_group _ _ _, handler_netif_ap _ _ _, handler_netif_sta _ _ _,
    handler_server _ _ _, handler_event_bits _ _ _, ?_⟩
  · unfold wifi_event_handler
    split_ifs <;>
      simp_all [State.call, xEventGroupSetBits, WIFI_EVENT_STA_START,
        WIFI_EVENT_STA_DISCONNECTED, WIFI_EVENT_AP_STACONNECTED,
        WIFI_EVENT_AP_STADISCONNECTED]

/-! ## The blocking wait -/

theorem connect_sta_start_ok (env : StaEnv) (ssid password : List Nat) (s : State)
    (hcfg : env.esp_wifi_set_config = ESP_OK) (hstart : env.esp_wifi_start = ESP_OK) :
    connect_sta_start env ssid password s
      = (Status.returned ESP_OK, sta_wait_state env ssid password s) := by
  simp [connect_sta_start, ESP_ERROR_CHECK, hcfg, hstart, sta_wait_state]

theorem connect_sta_eq_of_ok (env : StaEnv) (ssid password : List Nat) (timeout_ms : Nat)
    (before during after : List Event) (s : State)
    (hcfg : env.esp_wifi_set_config = ESP_OK) (hstart : env.esp_wifi_start = ESP_OK) :
    wifi_manager_connect_sta env ssid password timeout_ms before during after s
      = connect_sta_resolve env
          (sta_wait during (sta_entry_state env ssid password before s)).1
          (sta_resolve_state env ssid password before during after s) := by
  simp [wifi_manager_connect_sta, connect_sta_start_ok env ssid password s hcfg hstart,
    sta_wait, sta_entry_state, sta_resolve_state]

theorem observed_bits_of_ok (env : StaEnv) (ssid password : List Nat)
    (before during : List Event) (s : State)
    (hcfg : env.esp_wifi_set_config = ESP_OK) (hstart : env.esp_wifi_start = ESP_OK) :
    observed_bits env ssid password before during s
      = some (sta_wait during (sta_entry_state env ssid password before s)).1 := by
  simp [observed_bits, connect_sta_start_ok env ssid password s hcfg hstart, sta_wait,
    sta_entry_state]

theorem connect_sta_start_status (env : StaEnv) (ssid password : List Nat) (s : State) :
    (connect_sta_start env ssid password s).1 = Status.returned ESP_OK
      ∧ env.esp_wifi_set_config = ESP_OK ∧ env.esp_wifi_start = ESP_OK
    ∨ (∃ code, (connect_sta_start env ssid password s).1 = Status.aborted code)
      ∧ ∃ added, (connect_sta_start env ssid password s).2.trace = s.trace ++ added
        ∧ added.filter Call.is_napt_enable = []
        ∧ added.filter Call.is_set_default_netif = [] := by
  by_cases hcfg : env.esp_wifi_set_config = ESP_OK
  · by_cases hstart : env.esp_wifi_start = ESP_OK
    · left
      simp [connect_sta_start_ok env ssid password s hcfg hstart, hcfg, hstart]
    · right
      refine ⟨⟨env.esp_wifi_start, ?_⟩, ?_⟩
      · simp [connect_sta_start, ESP_ERROR_CHECK, hcfg, hstart]
      · refine ⟨[Call.esp_netif_create_default_wifi_sta,
          Call.esp_wifi_set_config wifi_interface_t.WIFI_IF_STA
            (wifi_config_t.sta (wifi_sta_config ssid password)), Call.esp_wifi_start], ?_, ?_, ?_⟩
        · simp [connect_sta_start, ESP_ERROR_CHECK, hcfg, hstart, State.call]
        · simp [Call.is_napt_enable]
        · simp [Call.is_set_default_netif]
  · right
    refine ⟨⟨env.esp_wifi_set_config, ?_⟩, ?_⟩
    · simp [connect_sta_start, ESP_ERROR_CHECK, hcfg]
    · refine ⟨[Call.esp_netif_create_default_wifi_sta,
        Call.esp_wifi_set_config wifi_interface_t.WIFI_IF_STA
          (wifi_config_t.sta (wifi_sta_config ssid password))], ?_, ?_, ?_⟩
      · simp [connect_sta_start, ESP_ERROR_CHECK, hcfg, State.call]
      · simp [Call.is_napt_enable]
      · simp [Call.is_set_default_netif]

theorem clearOnExit_frame (m : Nat) (c : Bool) (s : State) :
    (clearOnExit m c s).s_wifi_event_group = s.s_wifi_event_group
    ∧ (clearOnExit m c s).esp_netif_ap = s.esp_netif_ap
    ∧ (clearOnExit m c s).esp_netif_sta = s.esp_netif_sta
    ∧ (clearOnExit m c s).server = s.server
    ∧ (clearOnExit m c s).trace = s.trace := by
  unfold clearOnExit
  split_ifs <;> simp

theorem deliver_events_frame (evs : List Event) (s : State) :
    (deliver_events evs s).s_wifi_event_group = s.s_wifi_event_group
    ∧ (deliver_events evs s).esp_netif_ap = s.esp_netif_ap
    ∧ (deliver_events evs s).esp_netif_sta = s.esp_netif_sta
    ∧ (deliver_events evs s).server = s.server := by
  induction evs generalizing s with
  | nil => simp [deliver_events]
  | cons e rest ih =>
    have h := ih (wifi_event_handler e.base e.id s)
    rw [handler_event_group, handler_netif_ap, handler_netif_sta, handler_server] at h
    simpa [deliver_events] using h

theorem deliver_events_trace (evs : List Event) (s : State) :
    ∃ added, (deliver_events evs s).trace = s.trace ++ added ∧
      ∀ c ∈ added, c.from_handler = true := by
  induction evs generalizing s with
  | nil => exact ⟨[], by simp [deliver_events], by simp⟩
  | cons e rest ih =>
    obtain ⟨a1, h1, k1⟩ := handler_trace e.base e.id s
    obtain ⟨a2, h2, k2⟩ := ih (wifi_event_handler e.base e.id s)
    refine ⟨a1 ++ a2, ?_, ?_⟩
    · simp only [deliver_events]
      rw [h2, h1, List.append_assoc]
    · intro c hc
      rcases List.mem_append.mp hc with h | h
      · exact k1 c h
      · exact k2 c h

theorem sta_wait_frame (during : List Event) (s : State) :
    (sta_wait during s).2.1.s_wifi_event_group = s.s_wifi_event_group
    ∧ (sta_wait during s).2.1.esp_netif_ap = s.esp_netif_ap
    ∧ (sta_wait during s).2.1.esp_netif_sta = s.esp_netif_sta
    ∧ (sta_wait during s).2.1.server = s.server := by
  induction during generalizing s with
  | nil =>
    unfold sta_wait xEventGroupWaitBits
    split_ifs
    · obtain ⟨h1, h2, h3, h4, _⟩ := clearOnExit_frame (WIFI_CONNECTED_BIT ||| WIFI_FAIL_BIT) true s
      exact ⟨h1, h2, h3, h4⟩
    · simp
  | cons e rest ih =>
    unfold sta_wait xEventGroupWaitBits
    split_ifs
    · obtain ⟨h1, h2, h3, h4, _⟩ := clearOnExit_frame (WIFI_CONNECTED_BIT ||| WIFI_FAIL_BIT) true s
      exact ⟨h1, h2, h3, h4⟩
    · have h := ih (wifi_event_handler e.base e.id s)
      unfold sta_wait at h
      rw [handler_event_group, handler_netif_ap, handler_netif_sta, handler_server] at h
      exact h

theorem sta_wait_trace (during : List Event) (s : State) :
    ∃ added, (sta_wait during s).2.1.trace = s.trace ++ added ∧
      ∀ c ∈ added, c.from_handler = true := by
  induction during generalizing s with
  | nil =>
    refine ⟨[], ?_, by simp⟩
    unfold sta_wait xEventGroupWaitBits
    split_ifs
    · simp [(clearOnExit_frame _ _ s).2.2.2.2]
    · simp
  | cons e rest ih =>
    unfold sta_wait xEventGroupWaitBits
    split_ifs
    · exact ⟨[], by simp [(clearOnExit_frame _ _ s).2.2.2.2], by simp⟩
    · obtain ⟨a1, h1, k1⟩ := handler_trace e.base e.id s
      obtain ⟨a2, h2, k2⟩ := ih (wifi_event_handler e.base e.id s)
      unfold sta_wait at h2
      refine ⟨a1 ++ a2, ?_, ?_⟩
      · rw [h2, h1, List.append_assoc]
      · intro c hc
        rcases List.mem_append.mp hc with h | h
        · exact k1 c h
        · exact k2 c h

theorem sta_resolve_state_spec (env : StaEnv) (ssid password : List Nat)
    (before during after : List Event) (s : State) :
    (sta_resolve_state env ssid password before during after s).esp_netif_ap
      = s.esp_netif_ap ∧
    (sta_resolve_state env ssid password before during after s).esp_netif_sta
      = env.esp_netif_create_default_wifi_sta ∧
    ∃ added,
      (sta_resolve_state env ssid password before during after s).trace
        = s.trace ++ [Call.esp_netif_create_default_wifi_sta,
            Call.esp_wifi_set_config wifi_interface_t.WIFI_IF_STA
              (wifi_config_t.sta (wifi_sta_config ssid password)), Call.esp_wifi_start]
          ++ added ∧
      ∀ c ∈ added, c.from_handler = true := by
  have hap0 : (sta_wait_state env ssid password s).esp_netif_ap = s.esp_netif_ap := rfl
  have hsta0 : (sta_wait_state env ssid password s).esp_netif_sta
      = env.esp_netif_create_default_wifi_sta := rfl
  have htr0 : (sta_wait_state env ssid password s).trace = s.trace ++
      [Call.esp_netif_create_default_wifi_sta,
        Call.esp_wifi_set_config wifi_interface_t.WIFI_IF_STA
          (wifi_config_t.sta (wifi_sta_config ssid password)), Call.esp_wifi_start] := by
    simp [sta_wait_state, State.call]
  obtain ⟨_, b2, b3, _⟩ := deliver_events_frame before (sta_wait_state env ssid password s)
  obtain ⟨ab, hab, kb⟩ := deliver_events_trace before (sta_wait_state env ssid password s)
  obtain ⟨_, w2, w3, _⟩ := sta_wait_frame during (sta_entry_state env ssid password before s)
  obtain ⟨aw, haw, kw⟩ := sta_wait_trace during (sta_entry_state env ssid password before s)
  obtain ⟨_, d2, d3, _⟩ := deliver_events_frame
    ((sta_wait during (sta_entry_state env ssid password before s)).2.2 ++ after)
    (sta_wait during (sta_entry_state env ssid password before s)).2.1
  obtain ⟨ad, had, kd⟩ := deliver_events_trace
    ((sta_wait during (sta_entry_state env ssid password before s)).2.2 ++ after)
    (sta_wait during (sta_entry_state env ssid password before s)).2.1
  refine ⟨?_, ?_, ab ++ aw ++ ad, ?_, ?_⟩
  · unfold sta_resolve_state
    rw [d2, w2]
    unfold sta_entry_state
    rw [b2, hap0]
  · unfold sta_resolve_state
    rw [d3, w3]
    unfold sta_entry_state
    rw [b3, hsta0]
  · unfold sta_resolve_state
    rw [had, haw]
    unfold sta_entry_state
    rw [hab, htr0]
    simp [List.append_assoc]
  · intro c hc
    rcases List.mem_append.mp hc with h | h
    · rcases List.mem_append.mp h with h | h
      · exact kb c h
      · exact kw c h
    · exact kd c h

theorem filter_handler_calls (p : Call → Bool) (added : List Call)
    (hp : ∀ c, c.from_handler = true → p c = false)
    (h : ∀ c ∈ added, c.from_handler = true) : added.filter p = [] := by
  rw [List.filter_eq_nil_iff]
  intro c hc
  simp [hp c (h c hc)]

theorem napt_not_from_handler (c : Call) (h : c.from_handler = true) :
    c.is_napt_enable = false := by
  cases c <;> simp_all [Call.from_handler, Call.is_napt_enable]

theorem set_default_not_from_handler (c : Call) (h : c.from_handler = true) :
    c.is_set_default_netif = false := by
  cases c <;> simp_all [Call.from_handler, Call.is_set_default_netif]

/-! ## wifi_manager_connect_sta -/

/-- C1: for every state, every delivery of events before, during and after the wait
(hence every wait result) and every result of the forwarding-enable call, if applying
the STA configuration and starting the radio succeed, `wifi_manager_connect_sta`
reaches the wait, returns `ESP_OK`, and leaves `*connected` true exactly when the
CONNECTED bit is in the bits the wait returned. -/
theorem connect_sta_ok_connected_iff (env : StaEnv) (ssid password : List Nat)
    (timeout_ms : Nat) (before during after : List Event) (s : State)
    (hcfg : env.esp_wifi_set_config = ESP_OK) (hstart : env.esp_wifi_start = ESP_OK) :
    ∃ bits, observed_bits env ssid password before during s = some bits ∧
      (wifi_manager_connect_sta env ssid password timeout_ms before during after s).status
        = Status.returned ESP_OK ∧
      ((wifi_manager_connect_sta env ssid password timeout_ms before during after
          s).connected = true
        ↔ bits &&& WIFI_CONNECTED_BIT ≠ 0) := by
  refine ⟨_, observed_bits_of_ok env ssid password before during s hcfg hstart, ?_, ?_⟩
  · rw [connect_sta_eq_of_ok env ssid password timeout_ms before during after s hcfg hstart]
    unfold connect_sta_resolve
    split_ifs <;> rfl
  · rw [connect_sta_eq_of_ok env ssid password timeout_ms before during after s hcfg hstart]
    unfold connect_sta_resolve
    split_ifs with h <;> simp [h]

/-- Witness for C1: the forwarding-enable call fails with `ESP_FAIL` while the station
gets its address; the call still returns `ESP_OK` with `*connected` true. -/
theorem connect_sta_ok_connected_iff_witness :
    ∃ bits, observed_bits { StaEnv.accepting with esp_netif_napt_enable := ESP_FAIL }
        ssid_upstream password_upstream [] [Event.sta_got_ip] State.ap_started
        = some bits ∧
      (wifi_manager_connect_sta { StaEnv.accepting with esp_netif_napt_enable := ESP_FAIL }
        ssid_upstream password_upstream 5000 [] [Event.sta_got_ip] []
        State.ap_started).status = Status.returned ESP_OK ∧
      ((wifi_manager_connect_sta { StaEnv.accepting with esp_netif_napt_enable := ESP_FAIL }
        ssid_upstream password_upstream 5000 [] [Event.sta_got_ip] []
        State.ap_started).connected = true
        ↔ bits &&& WIFI_CONNECTED_BIT ≠ 0) :=
  connect_sta_ok_connected_iff { StaEnv.accepting with esp_netif_napt_enable := ESP_FAIL }
    ssid_upstream password_upstream 5000 [] [Event.sta_got_ip] [] State.ap_started rfl rfl

/-- C2, as stated, fails: an attempt in which the FAILED bit is observed (bits = 2) and
an attempt in which the wait times out with neither bit (bits = 0) end in the very same
result: same return status, same `*connected`, same state.  The caller cannot tell
`Failed` from `TimedOut`. -/
theorem connect_sta_failed_equals_timed_out :
    observed_bits StaEnv.accepting ssid_upstream password_upstream
        [] [Event.sta_disconnected] State.ap_started = some WIFI_FAIL_BIT ∧
    observed_bits StaEnv.accepting ssid_upstream password_upstream
        [] [] State.ap_started = some 0 ∧
    wifi_manager_connect_sta StaEnv.accepting ssid_upstream password_upstream 5000
        [] [Event.sta_disconnected] [] State.ap_started
      = wifi_manager_connect_sta StaEnv.accepting ssid_upstream password_upstream 5000
        [] [] [] State.ap_started := by
  refine ⟨by decide, by decide, by decide⟩

/-- C2, amended: the reported outcome is two-valued.  Whenever the call reaches the wait
and the wait returns `bits`, the caller is told `ESP_OK` with `*connected` false both
when FAILED is observed without CONNECTED and when neither bit is observed (timeout),
and `ESP_OK` with `*connected` true when CONNECTED is observed; the first two reports
are equal to each other and differ from the third. -/
theorem connect_sta_reported_two_valued (env : StaEnv) (ssid password : List Nat)
    (timeout_ms : Nat) (before during after : List Event) (s : State) (bits : Nat)
    (hobs : observed_bits env ssid password before during s = some bits) :
    (bits &&& WIFI_CONNECTED_BIT = 0 ∧ bits &&& WIFI_FAIL_BIT ≠ 0 →
      (wifi_manager_connect_sta env ssid password timeout_ms before during after
        s).reported = (Status.returned ESP_OK, false)) ∧
    (bits &&& WIFI_CONNECTED_BIT = 0 ∧ bits &&& WIFI_FAIL_BIT = 0 →
      (wifi_manager_connect_sta env ssid password timeout_ms before during after
        s).reported = (Status.returned ESP_OK, false)) ∧
    (bits &&& WIFI_CONNECTED_BIT ≠ 0 →
      (wifi_manager_connect_sta env ssid password timeout_ms before during after
        s).reported = (Status.returned ESP_OK, true)) ∧
    (Status.returned ESP_OK, false) ≠ (Status.returned ESP_OK, true) := by
  have key : (wifi_manager_connect_sta env ssid password timeout_ms before during after
        s).reported
      = (Status.returned ESP_OK, decide (bits &&& WIFI_CONNECTED_BIT ≠ 0)) := by
    unfold observed_bits at hobs
    unfold wifi_manager_connect_sta
    rcases hstart : connect_sta_start env ssid password s with ⟨st, s1⟩
    rw [hstart] at hobs
    cases st with
    | aborted code => simp at hobs
    | returned code =>
      simp only [Option.some.injEq] at hobs
      simp only [hobs]
      unfold connect_sta_resolve ConnectResult.reported
      split_ifs with h <;> simp [h]
  refine ⟨?_, ?_, ?_, by simp⟩
  · rintro ⟨h, _⟩; rw [key]; simp [h]
  · rintro ⟨h, _⟩; rw [key]; simp [h]
  · intro h; rw [key]; simp [h]

/-- Witness for the amended C2: a join attempt whose link is dropped. -/
theorem connect_sta_reported_two_valued_witness :
    observed_bits StaEnv.accepting ssid_upstream password_upstream
        [] [Event.sta_disconnected] State.ap_started = some WIFI_FAIL_BIT ∧
    (wifi_manager_connect_sta StaEnv.accepting ssid_upstream password_upstream 5000
        [] [Event.sta_disconnected] [] State.ap_started).reported
      = (Status.returned ESP_OK, false) :=
  ⟨by decide,
    (connect_sta_reported_two_valued StaEnv.accepting ssid_upstream password_upstream 5000
      [] [Event.sta_disconnected] [] State.ap_started WIFI_FAIL_BIT (by decide)).1
      ⟨by decide, by decide⟩⟩

/-- C3: in one `wifi_manager_connect_sta` call, whatever the environment and the events,
the calls it adds to the trace contain exactly one `esp_netif_napt_enable`, on the AP
interface handle, and exactly one `esp_netif_set_default_netif`, on the STA interface
handle just created, when the call ends with `*connected` true; they contain neither
call when it ends with `*connected` false (FAILED observed, timeout, or abort). -/
theorem connect_sta_forwarding_once (env : StaEnv) (ssid password : List Nat)
    (timeout_ms : Nat) (before during after : List Event) (s : State) :
    ∃ added,
      (wifi_manager_connect_sta env ssid password timeout_ms before during after
          s).state.trace = s.trace ++ added ∧
      added.filter Call.is_napt_enable =
        (if (wifi_manager_connect_sta env ssid password timeout_ms before during after
            s).connected
          then [Call.esp_netif_napt_enable s.esp_netif_ap] else []) ∧
      added.filter Call.is_set_default_netif =
        (if (wifi_manager_connect_sta env ssid password timeout_ms before during after
            s).connected
          then [Call.esp_netif_set_default_netif env.esp_netif_create_default_wifi_sta]
          else []) := by
  rcases connect_sta_start_status env ssid password s with ⟨_, hcfg, hstart⟩ | ⟨⟨code, hab⟩, hadd⟩
  · rw [connect_sta_eq_of_ok env ssid password timeout_ms before during after s hcfg hstart]
    obtain ⟨hap, hsta, aw, haw, hfrom⟩ :=
      sta_resolve_state_spec env ssid password before during after s
    have hn := filter_handler_calls Call.is_napt_enable aw napt_not_from_handler hfrom
    have hd := filter_handler_calls Call.is_set_default_netif aw
      set_default_not_from_handler hfrom
    unfold connect_sta_resolve
    by_cases hb : (sta_wait during (sta_entry_state env ssid password before s)).1
        &&& WIFI_CONNECTED_BIT ≠ 0
    · rw [if_pos hb]
      by_cases hnapt : env.esp_netif_napt_enable ≠ ESP_OK
      · refine ⟨[Call.esp_netif_create_default_wifi_sta,
          Call.esp_wifi_set_config wifi_interface_t.WIFI_IF_STA
            (wifi_config_t.sta (wifi_sta_config ssid password)), Call.esp_wifi_start]
          ++ aw ++ [Call.ESP_LOGI ("Connected to AP"),
            Call.esp_netif_set_default_netif env.esp_netif_create_default_wifi_sta,
            Call.esp_netif_napt_enable s.esp_netif_ap,
            Call.ESP_LOGE ("NAPT not enabled")], ?_, ?_, ?_⟩
        · simp [hnapt, State.call, haw, hap, hsta]
        · simp [List.filter_append, hn, Call.is_napt_enable]
        · simp [List.filter_append, hd, Call.is_set_default_netif]
      · refine ⟨[Call.esp_netif_create_default_wifi_sta,
          Call.esp_wifi_set_config wifi_interface_t.WIFI_IF_STA
            (wifi_config_t.sta (wifi_sta_config ssid password)), Call.esp_wifi_start]
          ++ aw ++ [Call.ESP_LOGI ("Connected to AP"),
            Call.esp_netif_set_default_netif env.esp_netif_create_default_wifi_sta,
            Call.esp_netif_napt_enable s.esp_netif_ap], ?_, ?_, ?_⟩
        · simp [hnapt, State.call, haw, hap, hsta]
        · simp [List.filter_append, hn, Call.is_napt_enable]
        · simp [List.filter_append, hd, Call.is_set_default_netif]
    · rw [if_neg hb]
      refine ⟨[Call.esp_netif_create_default_wifi_sta,
        Call.esp_wifi_set_config wifi_interface_t.WIFI_IF_STA
          (wifi_config_t.sta (wifi_sta_config ssid password)), Call.esp_wifi_start]
        ++ aw ++ [Call.ESP_LOGI ("Failed to connect to AP")], ?_, ?_, ?_⟩
      · simp [State.call, haw]
      · simp [List.filter_append, hn, Call.is_napt_enable]
      · simp [List.filter_append, hd, Call.is_set_default_netif]
  · obtain ⟨added, htr, hn, hd⟩ := hadd
    refine ⟨added, ?_, ?_, ?_⟩
    · unfold wifi_manager_connect_sta
      rcases hst : connect_sta_start env ssid password s with ⟨st, s1⟩
      rw [hst] at hab htr
      simp only at hab htr
      subst hab
      simpa using htr
    · unfold wifi_manager_connect_sta
      rcases hst : connect_sta_start env ssid password s with ⟨st, s1⟩
      rw [hst] at hab
      simp only at hab
      subst hab
      simpa using hn
    · unfold wifi_manager_connect_sta
      rcases hst : connect_sta_start env ssid password s with ⟨st, s1⟩
      rw [hst] at hab
      simp only at hab
      subst hab
      simpa using hd

/-! ## wifi_manager_start_ap -/

theorem strncpy_length (src : List Nat) (n : Nat) : (strncpy src n).length = n := by
  unfold strncpy
  rw [List.length_append, List.length_replicate, List.length_take]
  omega

theorem strncpy_of_le (src : List Nat) (n : Nat) (h : n ≤ strlen src) :
    strncpy src n = (c_str src).take n := by
  unfold strlen at h
  unfold strncpy
  rw [List.length_take, Nat.min_eq_left h, Nat.sub_self]
  simp

theorem strncpy_of_empty (src : List Nat) (n : Nat) (h : strlen src = 0) :
    strncpy src n = List.replicate n 0 := by
  unfold strlen at h
  have h0 : c_str src = [] := List.length_eq_zero.mp h
  simp [strncpy, h0]

/-- C4: for every SSID, password, channel and max-client count, `wifi_manager_start_ap`
passes exactly one configuration to `esp_wifi_set_config` for the AP interface; its
channel and max-connection fields equal the arguments; its authentication mode is
`WIFI_AUTH_OPEN` when the password is the empty string and `WIFI_AUTH_WPA2_PSK`
otherwise; and with an empty password the password field is all zero bytes and PMF is
not required. -/
theorem start_ap_config (env : ApEnv) (ap_ssid ap_password : List Nat)
    (ap_channel max_connections : Nat) (s : State) :
    ∃ cfg,
      (wifi_manager_start_ap env ap_ssid ap_password ap_channel max_connections s).2.trace
        = s.trace ++ [Call.esp_netif_create_default_wifi_ap,
            Call.esp_wifi_set_config wifi_interface_t.WIFI_IF_AP (wifi_config_t.ap cfg)] ∧
      cfg.channel = ap_channel ∧
      cfg.max_connection = max_connections ∧
      cfg.authmode = (if strlen ap_password = 0 then WIFI_AUTH_OPEN
        else WIFI_AUTH_WPA2_PSK) ∧
      cfg.pmf_cfg_required = false ∧
      (strlen ap_password = 0 → cfg.password = List.replicate PASSWORD_SIZE 0) := by
  refine ⟨wifi_ap_config ap_ssid ap_password ap_channel max_connections, ?_, ?_, ?_, ?_,
    ?_, ?_⟩
  · unfold wifi_manager_start_ap ESP_ERROR_CHECK
    split_ifs <;> simp [State.call]
  · unfold wifi_ap_config; split_ifs <;> rfl
  · unfold wifi_ap_config; split_ifs <;> rfl
  · unfold wifi_ap_config; split_ifs <;> rfl
  · unfold wifi_ap_config; split_ifs <;> rfl
  · intro h
    unfold wifi_ap_config
    simp [h, strncpy_of_empty ap_password PASSWORD_SIZE h]

/-! ## wifi_manager_deinit -/

/-- C5, as stated, fails: after a first `wifi_manager_deinit` that returned `ESP_OK`, a
second call on a radio that now reports `ESP_ERR_WIFI_NOT_INIT` from `esp_wifi_stop`
does not return: `ESP_ERROR_CHECK` aborts. -/
theorem deinit_twice_aborts :
    (wifi_manager_deinit DeinitEnv.accepting State.ap_started).1
      = Status.returned ESP_OK ∧
    (wifi_manager_deinit DeinitEnv.not_initialized
        (wifi_manager_deinit DeinitEnv.accepting State.ap_started).2).1
      = Status.aborted ESP_ERR_WIFI_NOT_INIT := by
  refine ⟨by decide, by decide⟩

theorem deinit_returned (env : DeinitEnv) (s : State) :
    ((wifi_manager_deinit env s).1 = Status.returned ESP_OK
      ↔ env.esp_wifi_stop = ESP_OK ∧ env.esp_wifi_deinit = ESP_OK) := by
  unfold wifi_manager_deinit ESP_ERROR_CHECK
  split_ifs with h1 h2 <;> simp_all

theorem deinit_ok_eq (env : DeinitEnv) (s : State)
    (h1 : env.esp_wifi_stop = ESP_OK) (h2 : env.esp_wifi_deinit = ESP_OK) :
    (wifi_manager_deinit env s).2 =
      if s.s_wifi_event_group ≠ none then
        { ((s.call Call.esp_wifi_stop).call Call.esp_wifi_deinit).call
            (Call.vEventGroupDelete s.s_wifi_event_group) with s_wifi_event_group := none }
      else (s.call Call.esp_wifi_stop).call Call.esp_wifi_deinit := by
  unfold wifi_manager_deinit ESP_ERROR_CHECK
  simp only [h1, h2, if_true]
  split_ifs <;> simp_all [State.call]

theorem deinit_trace (env : DeinitEnv) (s : State) :
    ∃ added, (wifi_manager_deinit env s).2.trace = s.trace ++ added ∧
      added.filter Call.is_group_delete =
        (if (wifi_manager_deinit env s).1 = Status.returned ESP_OK
            ∧ s.s_wifi_event_group ≠ none
          then [Call.vEventGroupDelete s.s_wifi_event_group] else []) := by
  by_cases h1 : env.esp_wifi_stop = ESP_OK
  · by_cases h2 : env.esp_wifi_deinit = ESP_OK
    · have hr := (deinit_returned env s).mpr ⟨h1, h2⟩
      rw [deinit_ok_eq env s h1 h2, hr]
      by_cases hg : s.s_wifi_event_group = none
      · refine ⟨[Call.esp_wifi_stop, Call.esp_wifi_deinit], ?_, ?_⟩
        · simp [hg, State.call]
        · simp [hg, Call.is_group_delete]
      · refine ⟨[Call.esp_wifi_stop, Call.esp_wifi_deinit,
          Call.vEventGroupDelete s.s_wifi_event_group], ?_, ?_⟩
        · simp [hg, State.call]
        · simp [hg, Call.is_group_delete]
    · have hr : (wifi_manager_deinit env s).1 ≠ Status.returned ESP_OK := by
        rw [Ne, deinit_returned]; simp [h2]
      refine ⟨[Call.esp_wifi_stop, Call.esp_wifi_deinit], ?_, ?_⟩
      · simp [wifi_manager_deinit, ESP_ERROR_CHECK, h1, h2, State.call]
      · simp [hr, Call.is_group_delete]
  · have hr : (wifi_manager_deinit env s).1 ≠ Status.returned ESP_OK := by
      rw [Ne, deinit_returned]; simp [h1]
    refine ⟨[Call.esp_wifi_stop], ?_, ?_⟩
    · simp [wifi_manager_deinit, ESP_ERROR_CHECK, h1, State.call]
    · simp [hr, Call.is_group_delete]

theorem deinit_group_none (env : DeinitEnv) (s : State)
    (h : (wifi_manager_deinit env s).1 = Status.returned ESP_OK) :
    (wifi_manager_deinit env s).2.s_wifi_event_group = none := by
  obtain ⟨h1, h2⟩ := (deinit_returned env s).mp h
  rw [deinit_ok_eq env s h1 h2]
  by_cases hg : s.s_wifi_event_group = none
  · simp [hg, State.call]
  · simp [hg]

theorem deinit_group_none_of_none (env : DeinitEnv) (s : State)
    (h : s.s_wifi_event_group = none) :
    (wifi_manager_deinit env s).2.s_wifi_event_group = none := by
  unfold wifi_manager_deinit ESP_ERROR_CHECK
  split_ifs <;> simp_all [State.call]

theorem deinit_registry (env : DeinitEnv) (s : State) :
    (wifi_manager_deinit env s).2.esp_netif_ap = s.esp_netif_ap ∧
    (wifi_manager_deinit env s).2.esp_netif_sta = s.esp_netif_sta ∧
    (wifi_manager_deinit env s).2.server = s.server := by
  by_cases h1 : env.esp_wifi_stop = ESP_OK
  · by_cases h2 : env.esp_wifi_deinit = ESP_OK
    · rw [deinit_ok_eq env s h1 h2]
      by_cases hg : s.s_wifi_event_group = none
      · simp [hg, State.call]
      · simp [hg, State.call]
    · simp [wifi_manager_deinit, ESP_ERROR_CHECK, h1, h2, State.call]
  · simp [wifi_manager_deinit, ESP_ERROR_CHECK, h1, State.call]

/-- C5, amended: when a first `wifi_manager_deinit` returns `ESP_OK`, it leaves the
signal handle null and has released the event group once if there was one, never more;
a second call right after it releases nothing and leaves the handle null, whatever the
radio answers; and that second call returns `ESP_OK` exactly when `esp_wifi_stop` and
`esp_wifi_deinit` both report `ESP_OK` again. -/
theorem deinit_twice_releases_once (env1 env2 : DeinitEnv) (s : State)
    (h : (wifi_manager_deinit env1 s).1 = Status.returned ESP_OK) :
    (wifi_manager_deinit env1 s).2.s_wifi_event_group = none ∧
    (∃ a1 a2,
      (wifi_manager_deinit env1 s).2.trace = s.trace ++ a1 ∧
      (wifi_manager_deinit env2 (wifi_manager_deinit env1 s).2).2.trace
        = (wifi_manager_deinit env1 s).2.trace ++ a2 ∧
      a1.filter Call.is_group_delete =
        (if s.s_wifi_event_group ≠ none
          then [Call.vEventGroupDelete s.s_wifi_event_group] else []) ∧
      a2.filter Call.is_group_delete = []) ∧
    (wifi_manager_deinit env2 (wifi_manager_deinit env1 s).2).2.s_wifi_event_group
      = none ∧
    ((wifi_manager_deinit env2 (wifi_manager_deinit env1 s).2).1 = Status.returned ESP_OK
      ↔ env2.esp_wifi_stop = ESP_OK ∧ env2.esp_wifi_deinit = ESP_OK) := by
  have hnone := deinit_group_none env1 s h
  obtain ⟨a1, ht1, hf1⟩ := deinit_trace env1 s
  obtain ⟨a2, ht2, hf2⟩ := deinit_trace env2 (wifi_manager_deinit env1 s).2
  refine ⟨hnone, ⟨a1, a2, ht1, ht2, ?_, ?_⟩, ?_, deinit_returned env2 _⟩
  · rw [hf1]; simp [h]
  · rw [hf2]; simp [hnone]
  · exact deinit_group_none_of_none env2 _ hnone

/-- Witness for the amended C5: two teardowns in a row after the access point was
started, the radio accepting both. -/
theorem deinit_twice_releases_once_witness :
    (wifi_manager_deinit DeinitEnv.accepting State.ap_started).1
      = Status.returned ESP_OK ∧
    (wifi_manager_deinit DeinitEnv.accepting
      (wifi_manager_deinit DeinitEnv.accepting State.ap_started).2).2.s_wifi_event_group
      = none :=
  ⟨by decide,
    (deinit_twice_releases_once DeinitEnv.accepting DeinitEnv.accepting State.ap_started
      (by decide)).2.2.1⟩

/-- C6, as stated, fails: after AP start and a successful STA join, `wifi_manager_deinit`
returns `ESP_OK` and both interface handles are still set. -/
theorem deinit_keeps_interfaces :
    (wifi_manager_deinit DeinitEnv.accepting State.sta_connected).1
      = Status.returned ESP_OK ∧
    (wifi_manager_deinit DeinitEnv.accepting State.sta_connected).2.esp_netif_ap
      = some 1 ∧
    (wifi_manager_deinit DeinitEnv.accepting State.sta_connected).2.esp_netif_sta
      = some 2 := by
  refine ⟨by decide, by decide, by decide⟩

/-- C6, amended: after `wifi_manager_deinit` returns successfully from any state, the
signal handle is null and the two interface handles `esp_netif_ap` and `esp_netif_sta`
hold the values they held before the call. -/
theorem deinit_nulls_signal_only (env : DeinitEnv) (s : State)
    (h : (wifi_manager_deinit env s).1 = Status.returned ESP_OK) :
    (wifi_manager_deinit env s).2.s_wifi_event_group = none ∧
    (wifi_manager_deinit env s).2.esp_netif_ap = s.esp_netif_ap ∧
    (wifi_manager_deinit env s).2.esp_netif_sta = s.esp_netif_sta :=
  ⟨deinit_group_none env s h, (deinit_registry env s).1, (deinit_registry env s).2.1⟩

/-- Witness for the amended C6: teardown after a successful join. -/
theorem deinit_nulls_signal_only_witness :
    (wifi_manager_deinit DeinitEnv.accepting State.sta_connected).1
      = Status.returned ESP_OK ∧
    (wifi_manager_deinit DeinitEnv.accepting State.sta_connected).2.s_wifi_event_group
      = none ∧
    (wifi_manager_deinit DeinitEnv.accepting State.sta_connected).2.esp_netif_ap
      = State.sta_connected.esp_netif_ap ∧
    (wifi_manager_deinit DeinitEnv.accepting State.sta_connected).2.esp_netif_sta
      = State.sta_connected.esp_netif_sta :=
  ⟨by decide,
    deinit_nulls_signal_only DeinitEnv.accepting State.sta_connected (by decide)⟩

/-! ## Address queries -/

/-- C7, evaluated: with no AP interface created (handle NULL) and
`esp_netif_get_ip_info` reporting `ESP_ERR_INVALID_ARG`, `wifi_manager_get_ap_ip`
returns `ESP_OK` and writes a string; with an AP interface and a failing query it
returns `ESP_OK` as well; `wifi_manager_get_sta_ip` returns `ESP_FAIL` when the lookup
finds no interface and the failing code when the query fails. -/
theorem get_ap_ip_ignores_failure :
    State.boot.esp_netif_ap = none ∧
    (wifi_manager_get_ap_ip IpEnv.no_interface 16 State.boot).ret = ESP_OK ∧
    (wifi_manager_get_ap_ip IpEnv.no_interface 16 State.boot).ip_addr ≠ none ∧
    (wifi_manager_get_ap_ip
      { esp_netif_get_handle_from_ifkey := some 2, esp_netif_get_ip_info := ESP_FAIL,
        ip := 0 } 16 State.ap_started).ret = ESP_OK ∧
    (wifi_manager_get_sta_ip IpEnv.no_interface 16 State.boot).ret = ESP_FAIL ∧
    (wifi_manager_get_sta_ip
      { esp_netif_get_handle_from_ifkey := some 2, esp_netif_get_ip_info := ESP_FAIL,
        ip := 0 } 16 State.ap_started).ret = ESP_FAIL := by
  refine ⟨rfl, rfl, ?_, rfl, by decide, by decide⟩
  simp [wifi_manager_get_ap_ip, snprintf_ip]

/-! ## Lengths of SSID and credential -/

/-- C8, as stated, fails: with an SSID of 33 characters both `wifi_manager_start_ap` and
`wifi_manager_connect_sta` return `ESP_OK`, and the configuration they hand to the
radio carries the first 32 characters of the over-long string. -/
theorem overlong_ssid_accepted :
    strlen ssid_33 = 33 ∧
    (wifi_manager_start_ap ApEnv.accepting ssid_33 password_home 1 8 State.ap_started).1
      = Status.returned ESP_OK ∧
    Call.esp_wifi_set_config wifi_interface_t.WIFI_IF_AP
        (wifi_config_t.ap
          { ssid := List.replicate 32 65, password := strncpy password_home 64,
            channel := 1, authmode := WIFI_AUTH_WPA2_PSK, max_connection := 8,
            pmf_cfg_required := false })
      ∈ (wifi_manager_start_ap ApEnv.accepting ssid_33 password_home 1 8
          State.ap_started).2.trace ∧
    (wifi_manager_connect_sta StaEnv.accepting ssid_33 password_upstream 5000
        [] [Event.sta_got_ip] [] State.ap_started).status = Status.returned ESP_OK ∧
    Call.esp_wifi_set_config wifi_interface_t.WIFI_IF_STA
        (wifi_config_t.sta
          { ssid := List.replicate 32 65, password := strncpy password_upstream 64,
            scan_method := WIFI_ALL_CHANNEL_SCAN, failure_retry_cnt := 5,
            threshold_authmode := WIFI_AUTH_WPA2_PSK, sae_pwe_h2e := WPA3_SAE_PWE_BOTH })
      ∈ (wifi_manager_connect_sta StaEnv.accepting ssid_33 password_upstream 5000
          [] [Event.sta_got_ip] [] State.ap_started).state.trace := by
  refine ⟨by decide, by decide, by decide, by decide, by decide⟩

/-- C8, amended: lengths are not validated.  For every SSID and credential, when the
radio accepts the configuration (and, for the station, starts), both functions return
`ESP_OK` after handing the radio a configuration whose SSID and password fields are 32
and 64 bytes long; an SSID of 32 characters or more is cut to its first 32 characters
and a credential of 64 characters or more to its first 64. -/
theorem overlong_strings_truncated (envA : ApEnv) (envS : StaEnv)
    (ssid password : List Nat) (ap_channel max_connections timeout_ms : Nat)
    (before during after : List Event) (s : State)
    (hA : envA.esp_wifi_set_config = ESP_OK)
    (hcfg : envS.esp_wifi_set_config = ESP_OK) (hstart : envS.esp_wifi_start = ESP_OK) :
    (wifi_manager_start_ap envA ssid password ap_channel max_connections s).1
      = Status.returned ESP_OK ∧
    (wifi_manager_connect_sta envS ssid password timeout_ms before during after s).status
      = Status.returned ESP_OK ∧
    Call.esp_wifi_set_config wifi_interface_t.WIFI_IF_AP
        (wifi_config_t.ap (wifi_ap_config ssid password ap_channel max_connections))
      ∈ (wifi_manager_start_ap envA ssid password ap_channel max_connections s).2.trace ∧
    Call.esp_wifi_set_config wifi_interface_t.WIFI_IF_STA
        (wifi_config_t.sta (wifi_sta_config ssid password))
      ∈ (wifi_manager_connect_sta envS ssid password timeout_ms before during after
          s).state.trace ∧
    (wifi_ap_config ssid password ap_channel max_connections).ssid.length = SSID_SIZE ∧
    (wifi_ap_config ssid password ap_channel max_connections).password.length
      = PASSWORD_SIZE ∧
    (wifi_sta_config ssid password).ssid.length = SSID_SIZE ∧
    (wifi_sta_config ssid password).password.length = PASSWORD_SIZE ∧
    (SSID_SIZE ≤ strlen ssid →
      (wifi_ap_config ssid password ap_channel max_connections).ssid
        = (c_str ssid).take SSID_SIZE ∧
      (wifi_sta_config ssid password).ssid = (c_str ssid).take SSID_SIZE) ∧
    (PASSWORD_SIZE ≤ strlen password →
      (wifi_ap_config ssid password ap_channel max_connections).password
        = (c_str password).take PASSWORD_SIZE ∧
      (wifi_sta_config ssid password).password = (c_str password).take PASSWORD_SIZE) := by
  have hapssid : (wifi_ap_config ssid password ap_channel max_connections).ssid
      = strncpy ssid SSID_SIZE := by
    unfold wifi_ap_config; split_ifs <;> rfl
  have happw : (wifi_ap_config ssid password ap_channel max_connections).password
      = strncpy password PASSWORD_SIZE := by
    unfold wifi_ap_config; split_ifs <;> rfl
  have hstassid : (wifi_sta_config ssid password).ssid = strncpy ssid SSID_SIZE := rfl
  have hstapw : (wifi_sta_config ssid password).password
      = strncpy password PASSWORD_SIZE := rfl
  refine ⟨?_, ?_, ?_, ?_, ?_, ?_, ?_, ?_, ?_, ?_⟩
  · simp [wifi_manager_start_ap, ESP_ERROR_CHECK, hA]
  · rw [connect_sta_eq_of_ok envS ssid password timeout_ms before during after s hcfg
      hstart]
    unfold connect_sta_resolve
    split_ifs <;> rfl
  · simp [wifi_manager_start_ap, ESP_ERROR_CHECK, hA, State.call]
  · rw [connect_sta_eq_of_ok envS ssid password timeout_ms before during after s hcfg
      hstart]
    obtain ⟨_, _, aw, haw, _⟩ :=
      sta_resolve_state_spec envS ssid password before during after s
    have hmem : Call.esp_wifi_set_config wifi_interface_t.WIFI_IF_STA
        (wifi_config_t.sta (wifi_sta_config ssid password))
        ∈ (sta_resolve_state envS ssid password before during after s).trace := by
      rw [haw]
      simp
    unfold connect_sta_resolve
    split_ifs <;> simp [State.call, hmem]
  · rw [hapssid, strncpy_length]
  · rw [happw, strncpy_length]
  · rw [hstassid, strncpy_length]
  · rw [hstapw, strncpy_length]
  · intro h
    rw [hapssid, hstassid, strncpy_of_le ssid SSID_SIZE h]
    exact ⟨rfl, rfl⟩
  · intro h
    rw [happw, hstapw, strncpy_of_le password PASSWORD_SIZE h]
    exact ⟨rfl, rfl⟩

/-- Witness for the amended C8: the 33-character SSID on a radio that accepts it. -/
theorem overlong_strings_truncated_witness :
    SSID_SIZE ≤ strlen ssid_33 ∧
    (wifi_manager_start_ap ApEnv.accepting ssid_33 password_home 1 8 State.ap_started).1
      = Status.returned ESP_OK ∧
    (wifi_ap_config ssid_33 password_home 1 8).ssid = (c_str ssid_33).take SSID_SIZE :=
  ⟨by decide,
    (overlong_strings_truncated ApEnv.accepting StaEnv.accepting ssid_33 password_home
      1 8 5000 [] [] [] State.ap_started rfl rfl rfl).1,
    ((overlong_strings_truncated ApEnv.accepting StaEnv.accepting ssid_33 password_home
      1 8 5000 [] [] [] State.ap_started rfl rfl rfl).2.2.2.2.2.2.2.2.1 (by decide)).1⟩

/-! ## The Connection Signal across calls -/

theorem signal_mask_eq : WIFI_CONNECTED_BIT ||| WIFI_FAIL_BIT = 3 := rfl

theorem event_signal_cases (e : Event) :
    e.signal = 0 ∨ e.signal = 1 ∨ e.signal = 2 := by
  unfold Event.signal
  split_ifs
  · right; right; rfl
  · right; left; rfl
  · left; rfl

theorem event_signal_and_mask (e : Event) : e.signal &&& 3 = e.signal := by
  rcases event_signal_cases e with h | h | h <;> rw [h] <;> rfl

theorem handler_bits_signal (e : Event) (s : State) :
    (wifi_event_handler e.base e.id s).event_bits = s.event_bits ||| e.signal := by
  rw [handler_event_bits]
  unfold Event.signal
  split_ifs <;> simp

theorem deliver_events_bits (evs : List Event) (s : State) :
    (deliver_events evs s).event_bits = s.event_bits ||| pending_bits evs := by
  induction evs generalizing s with
  | nil => simp [deliver_events, pending_bits]
  | cons e rest ih =>
    simp only [deliver_events, pending_bits]
    rw [ih, handler_bits_signal, Nat.or_assoc]

theorem pending_bits_and_mask (evs : List Event) :
    pending_bits evs &&& 3 = pending_bits evs := by
  induction evs with
  | nil => rfl
  | cons e rest ih =>
    simp only [pending_bits]
    rw [Nat.and_distrib_right, ih, event_signal_and_mask]

theorem sta_wait_of_pending (during : List Event) (s : State)
    (h : s.event_bits &&& 3 ≠ 0) :
    sta_wait during s
      = (s.event_bits, { s with event_bits := s.event_bits ^^^ (s.event_bits &&& 3) },
          during) := by
  cases during with
  | nil =>
    simp [sta_wait, xEventGroupWaitBits, prvTestWaitCondition, signal_mask_eq, h,
      clearOnExit]
  | cons e rest =>
    simp [sta_wait, xEventGroupWaitBits, prvTestWaitCondition, signal_mask_eq, h,
      clearOnExit]

theorem sta_wait_nil_of_clear (s : State) (h : s.event_bits &&& 3 = 0) :
    sta_wait [] s = (s.event_bits, s, []) := by
  simp [sta_wait, xEventGroupWaitBits, prvTestWaitCondition, signal_mask_eq, h]

theorem sta_wait_cons_of_clear (e : Event) (rest : List Event) (s : State)
    (h : s.event_bits &&& 3 = 0) :
    sta_wait (e :: rest) s = sta_wait rest (wifi_event_handler e.base e.id s) := by
  simp [sta_wait, xEventGroupWaitBits, prvTestWaitCondition, signal_mask_eq, h]

theorem sta_wait_cleared (during : List Event) (s : State) :
    (sta_wait during s).2.1.event_bits &&& 3 = 0 := by
  induction during generalizing s with
  | nil =>
    by_cases h : s.event_bits &&& 3 = 0
    · rw [sta_wait_nil_of_clear s h]; exact h
    · rw [sta_wait_of_pending [] s h]; exact clear_and_mask _ _
  | cons e rest ih =>
    by_cases h : s.event_bits &&& 3 = 0
    · rw [sta_wait_cons_of_clear e rest s h]; exact ih _
    · rw [sta_wait_of_pending (e :: rest) s h]; exact clear_and_mask _ _

theorem sta_wait_fresh (during : List Event) (s : State) (h : s.event_bits &&& 3 = 0) :
    (sta_wait during s).1 &&& 3 = signal_bits (first_signal during) ∧
    (sta_wait during s).2.2 = after_first_signal during := by
  induction during generalizing s with
  | nil =>
    rw [sta_wait_nil_of_clear s h]
    exact ⟨h, rfl⟩
  | cons e rest ih =>
    rw [sta_wait_cons_of_clear e rest s h]
    have hb := handler_bits_signal e s
    unfold first_signal after_first_signal
    by_cases hd : e.base = esp_event_base_t.WIFI_EVENT ∧ e.id = WIFI_EVENT_STA_DISCONNECTED
    · have hs : e.signal = 2 := by unfold Event.signal; rw [if_pos hd]; rfl
      rw [hs] at hb
      have hp : (wifi_event_handler e.base e.id s).event_bits &&& 3 = 2 := by
        rw [hb]; exact or_two_and_three h
      have hp0 : (wifi_event_handler e.base e.id s).event_bits &&& 3 ≠ 0 := by
        rw [hp]; decide
      rw [sta_wait_of_pending rest _ hp0, if_pos hd, hs]
      exact ⟨hp, by simp⟩
    · by_cases hg : e.base = esp_event_base_t.IP_EVENT ∧ e.id = IP_EVENT_STA_GOT_IP
      · have hs : e.signal = 1 := by
          unfold Event.signal; rw [if_neg hd, if_pos hg]; rfl
        rw [hs] at hb
        have hp : (wifi_event_handler e.base e.id s).event_bits &&& 3 = 1 := by
          rw [hb]; exact or_one_and_three h
        have hp0 : (wifi_event_handler e.base e.id s).event_bits &&& 3 ≠ 0 := by
          rw [hp]; decide
        rw [sta_wait_of_pending rest _ hp0, if_neg hd, if_pos hg, hs]
        exact ⟨hp, by simp⟩
      · have hs : e.signal = 0 := by
          unfold Event.signal; rw [if_neg hd, if_neg hg]
        rw [hs] at hb
        rw [if_neg hd, if_neg hg, hs]
        simpa using ih _ (by rw [hb]; simpa using h)

theorem and_one_eq_and_three_and_one (b : Nat) : b &&& 1 = (b &&& 3) &&& 1 := by
  have h3 : (3 : Nat) &&& 1 = 1 := rfl
  rw [Nat.and_assoc, h3]

theorem sta_entry_state_event_bits (env : StaEnv) (ssid password : List Nat)
    (before : List Event) (s : State) :
    (sta_entry_state env ssid password before s).event_bits
      = s.event_bits ||| pending_bits before := by
  unfold sta_entry_state
  rw [deliver_events_bits]
  rfl

theorem sta_resolve_state_event_bits (env : StaEnv) (ssid password : List Nat)
    (before during after : List Event) (s : State) :
    (sta_resolve_state env ssid password before during after s).event_bits &&& 3
      = pending_bits
          ((sta_wait during (sta_entry_state env ssid password before s)).2.2 ++ after) := by
  unfold sta_resolve_state
  rw [deliver_events_bits, Nat.and_distrib_right, sta_wait_cleared, pending_bits_and_mask,
    Nat.zero_or]

theorem connect_sta_resolve_event_bits (env : StaEnv) (bits : Nat) (s : State) :
    (connect_sta_resolve env bits s).state.event_bits = s.event_bits := by
  unfold connect_sta_resolve
  split_ifs <;> simp [State.call]

theorem connect_sta_resolve_connected (env : StaEnv) (bits : Nat) (s : State) :
    (connect_sta_resolve env bits s).connected = decide (bits &&& 1 ≠ 0) := by
  unfold connect_sta_resolve
  have h1 : WIFI_CONNECTED_BIT = 1 := rfl
  rw [h1]
  by_cases h : bits &&& 1 ≠ 0
  · rw [if_pos h]
    exact (decide_eq_true h).symm
  · rw [if_neg h]
    exact (decide_eq_false h).symm

/-- C9, as stated, fails: a first call times out with no event; the station-got-IP
event is delivered after that call has returned; a second call, in which no event at
all is delivered, observes the CONNECTED bit at once and reports connected, while the
same second call without the late event reports not connected. -/
theorem stale_bit_decides_next_call :
    (wifi_manager_connect_sta StaEnv.accepting ssid_upstream password_upstream 5000
      [] [] [] State.ap_started).connected = false ∧
    observed_bits StaEnv.accepting ssid_home password_home [] []
      (wifi_event_handler esp_event_base_t.IP_EVENT IP_EVENT_STA_GOT_IP
        State.sta_timed_out) = some WIFI_CONNECTED_BIT ∧
    (wifi_manager_connect_sta StaEnv.accepting ssid_home password_home 5000 [] [] []
      (wifi_event_handler esp_event_base_t.IP_EVENT IP_EVENT_STA_GOT_IP
        State.sta_timed_out)).connected = true ∧
    (wifi_manager_connect_sta StaEnv.accepting ssid_home password_home 5000 [] [] []
      State.sta_timed_out).connected = false := by
  refine ⟨by decide, by decide, by decide, by decide⟩

/-- C9, amended: the signal is cleared only by the wait, when it consumes a bit, never at
the start of an attempt.  Take a `wifi_manager_connect_sta` call that reaches its wait,
with events delivered before the wait is entered, from then on, and after the wait.
If CONNECTED or FAILED is set when the wait is entered, whether pending from before the
call or set by the handler inside the call before the wait, the wait returns the bits
of that moment at once, the call reports connected exactly when CONNECTED is among
them, and the bits left in the signal at the return are those set by every later event
of the call.  If neither is set when the wait is entered, the call reports connected
exactly when station-got-IP is the first signalling event delivered while it waits, and
the bits left at the return are those set by the events after that first signalling
event.  Bits left at the return, like bits set after it, are consumed by the next
call. -/
theorem connect_sta_signal_consumption (env : StaEnv) (ssid password : List Nat)
    (timeout_ms : Nat) (before during after : List Event) (s : State)
    (hcfg : env.esp_wifi_set_config = ESP_OK) (hstart : env.esp_wifi_start = ESP_OK) :
    ((s.event_bits ||| pending_bits before) &&& (WIFI_CONNECTED_BIT ||| WIFI_FAIL_BIT) ≠ 0 →
      observed_bits env ssid password before during s
        = some (s.event_bits ||| pending_bits before) ∧
      (wifi_manager_connect_sta env ssid password timeout_ms before during after
          s).connected
        = decide ((s.event_bits ||| pending_bits before) &&& WIFI_CONNECTED_BIT ≠ 0) ∧
      (wifi_manager_connect_sta env ssid password timeout_ms before during after
          s).state.event_bits &&& (WIFI_CONNECTED_BIT ||| WIFI_FAIL_BIT)
        = pending_bits (during ++ after)) ∧
    ((s.event_bits ||| pending_bits before) &&& (WIFI_CONNECTED_BIT ||| WIFI_FAIL_BIT) = 0 →
      (wifi_manager_connect_sta env ssid password timeout_ms before during after
          s).connected
        = decide (first_signal during = some true) ∧
      (wifi_manager_connect_sta env ssid password timeout_ms before during after
          s).state.event_bits &&& (WIFI_CONNECTED_BIT ||| WIFI_FAIL_BIT)
        = pending_bits (after_first_signal during ++ after)) := by
  have hentry := sta_entry_state_event_bits env ssid password before s
  rw [connect_sta_eq_of_ok env ssid password timeout_ms before during after s hcfg hstart,
    observed_bits_of_ok env ssid password before during s hcfg hstart,
    signal_mask_eq, connect_sta_resolve_event_bits, connect_sta_resolve_connected,
    sta_resolve_state_event_bits]
  constructor
  · intro h
    have hw := sta_wait_of_pending during (sta_entry_state env ssid password before s)
      (by rw [hentry]; exact h)
    rw [hw, hentry]
    exact ⟨rfl, rfl, rfl⟩
  · intro h
    obtain ⟨hf, hrest⟩ := sta_wait_fresh during (sta_entry_state env ssid password before s)
      (by rw [hentry]; exact h)
    rw [and_one_eq_and_three_and_one, hf, hrest]
    refine ⟨?_, rfl⟩
    rcases hs : first_signal during with _ | b
    · simp [signal_bits]
    · cases b <;> simp [signal_bits, WIFI_CONNECTED_BIT, WIFI_FAIL_BIT, BIT0, BIT1]

/-- Witness for the amended C9: a call that enters the wait with both bits clear; the
link drops while it waits and the address arrives after the wake-up, so the call
reports not connected and returns with the CONNECTED bit left in the signal. -/
theorem connect_sta_signal_consumption_witness :
    (State.ap_started.event_bits ||| pending_bits [])
      &&& (WIFI_CONNECTED_BIT ||| WIFI_FAIL_BIT) = 0 ∧
    (wifi_manager_connect_sta StaEnv.accepting ssid_upstream password_upstream 5000
      [] [Event.sta_disconnected, Event.sta_got_ip] [] State.ap_started).connected
      = false ∧
    (wifi_manager_connect_sta StaEnv.accepting ssid_upstream password_upstream 5000
      [] [Event.sta_disconnected, Event.sta_got_ip] [] State.ap_started).state.event_bits
        &&& (WIFI_CONNECTED_BIT ||| WIFI_FAIL_BIT)
      = WIFI_CONNECTED_BIT :=
  ⟨by decide,
    ((connect_sta_signal_consumption StaEnv.accepting ssid_upstream password_upstream 5000
      [] [Event.sta_disconnected, Event.sta_got_ip] [] State.ap_started rfl rfl).2
      (by decide)).1.trans (by decide),
    ((connect_sta_signal_consumption StaEnv.accepting ssid_upstream password_upstream 5000
      [] [Event.sta_disconnected, Event.sta_got_ip] [] State.ap_started rfl rfl).2
      (by decide)).2.trans (by decide)⟩

end WifiManager
